import Mathlib

/-!
Shallow embedding of `src/CAE_mesh_automation.py` (class `MeshOptimizer`).

Python floats are modelled by `ℚ`.  The NumPy global random generator is
modelled by a state `RngState`: a stream of unit-interval variates together
with a position; `np.random.seed(42)` installs the fixed stream belonging to
seed 42 (an ambient parameter `u` of the development, since the program only
ever seeds with 42) and resets the position to 0, and
`np.random.uniform(lo, hi)` returns `lo + (hi - lo) * stream pos` and
advances the position, matching NumPy's `lo + (hi - lo) * random()` with
`random() ∈ [0, 1)`.  `np.random.uniform(lo, hi, n)` with negative `n`
raises `ValueError: negative dimensions are not allowed`; fallible calls are
modelled with `Except String`.
-/

/-- One row of the mesh `DataFrame`: `Element_ID` plus the four quality
attributes. -/
structure MeshRecord where
  element_id : Int
  aspect_ratio : ℚ
  jacobian : ℚ
  skewness : ℚ
  element_quality : ℚ
deriving DecidableEq, Repr

/-- The state of NumPy's global random generator: the realised stream of
unit-interval variates and the current position in it. -/
structure RngState where
  stream : Nat → ℚ
  pos : Nat

/-- A stream of unit-interval variates, as NumPy's `random()` produces:
every value lies in `[0, 1)`. -/
def UnitStream (u : Nat → ℚ) : Prop := ∀ k, 0 ≤ u k ∧ u k < 1

/-- `np.random.seed(42)`: installs the stream determined by seed 42 and
resets the position. -/
def npSeed42 (u : Nat → ℚ) : RngState := ⟨u, 0⟩

/-- Pandas `Series.clip(lo, hi)` on one value. -/
def clip (x lo hi : ℚ) : ℚ := min (max x lo) hi

/-- The `i`-th record generated by `generate_mesh` (0-based), reading the
four attribute draws from the seeded stream `u`: `np.random.uniform` is
called four times with size `n`, so `aspect_ratios` occupies positions
`0..n-1`, `jacobians` positions `n..2n-1`, `skewness` positions `2n..3n-1`
and `element_quality` positions `3n..4n-1`; `Element_ID` is `np.arange(1, n+1)`. -/
def generatedRecord (u : Nat → ℚ) (n i : Nat) : MeshRecord :=
  { element_id := (i : Int) + 1
    aspect_ratio := 1 + (5 - 1) * u i
    jacobian := 0.3 + (1 - 0.3) * u (n + i)
    skewness := 0 + (0.8 - 0) * u (2 * n + i)
    element_quality := 0.4 + (1 - 0.4) * u (3 * n + i) }

/-- The dataset built by `generate_mesh` for a non-negative element count. -/
def generatedData (u : Nat → ℚ) (n : Nat) : List MeshRecord :=
  (List.range n).map (generatedRecord u n)

/-- The poor-quality predicate of `analyze_mesh_quality` (lines 36-41):
`Aspect_Ratio > 3.5` or `Jacobian < 0.5` or `Skewness > 0.6` or
`Element_Quality < 0.6`. -/
def isPoor (r : MeshRecord) : Bool :=
  decide (r.aspect_ratio > 3.5) || decide (r.jacobian < 0.5) ||
    decide (r.skewness > 0.6) || decide (r.element_quality < 0.6)

/-- `poor_elements`: the rows of the dataset satisfying the boolean mask,
in their original order. -/
def poorElements (ds : List MeshRecord) : List MeshRecord := ds.filter isPoor

/-- Pandas `Series.mean`: sum over count.  (In `ℚ` the empty mean is `0/0 = 0`;
pandas returns `NaN` there, a case no claim depends on.) -/
def colMean (xs : List ℚ) : ℚ := xs.sum / xs.length

/-- The `analysis_report` dictionary of `analyze_mesh_quality`. -/
structure AnalysisReport where
  total_elements : Nat
  poor_quality_elements : Nat
  percentage_poor : ℚ
  avg_aspect_ratio : ℚ
  avg_jacobian : ℚ
  avg_skewness : ℚ
  avg_element_quality : ℚ
deriving DecidableEq, Repr

/-- The report built at lines 43-51 (total, poor count, poor percentage and
the four per-attribute means). -/
def mkAnalysisReport (ds : List MeshRecord) : AnalysisReport :=
  { total_elements := ds.length
    poor_quality_elements := (poorElements ds).length
    percentage_poor := (((poorElements ds).length : ℚ) / (ds.length : ℚ)) * 100
    avg_aspect_ratio := colMean (ds.map MeshRecord.aspect_ratio)
    avg_jacobian := colMean (ds.map MeshRecord.jacobian)
    avg_skewness := colMean (ds.map MeshRecord.skewness)
    avg_element_quality := colMean (ds.map MeshRecord.element_quality) }

/-- The per-row transform of `optimize_mesh` (lines 62-70): each attribute is
scaled by its fixed factor when its threshold condition holds, then every
attribute is clamped into its fixed range.  The four columns are updated
independently, so the row-wise view is exact. -/
def optimizeRecord (r : MeshRecord) : MeshRecord :=
  let ar := if r.aspect_ratio > 3.5 then r.aspect_ratio * 0.7 else r.aspect_ratio
  let j := if r.jacobian < 0.5 then r.jacobian * 1.3 else r.jacobian
  let sk := if r.skewness > 0.6 then r.skewness * 0.6 else r.skewness
  let q := if r.element_quality < 0.6 then r.element_quality * 1.25 else r.element_quality
  { element_id := r.element_id
    aspect_ratio := clip ar 1.0 4.0
    jacobian := clip j 0.3 1.0
    skewness := clip sk 0.0 0.7
    element_quality := clip q 0.5 1.0 }

/-- The scale-and-clamp transform of `optimize_mesh` applied to a whole
dataset (the `optimized_mesh` copy). -/
def optimizeData (ds : List MeshRecord) : List MeshRecord := ds.map optimizeRecord

/-- The dictionary returned by `compute_optimization_metrics`. -/
structure OptMetrics where
  original_avg_quality : ℚ
  optimized_avg_quality : ℚ
  improvement_percentage : ℚ
  computational_time_reduction : ℚ
deriving DecidableEq, Repr

/-- The `MeshOptimizer` instance: the configured element count and the cached
dataset (`self.mesh_data`, initially `None`). -/
structure MeshOptimizer where
  num_elements : Int
  mesh_data : Option (List MeshRecord)
deriving DecidableEq, Repr

/-- `MeshOptimizer(num_elements)`. -/
def MeshOptimizer.mkNew (n : Int) : MeshOptimizer := ⟨n, none⟩

/-- `generate_mesh` (lines 11-29): seeds the global RNG with 42, draws the
four attribute columns, caches the dataset and returns it.
`np.random.uniform(lo, hi, n)` with negative `n` raises
`ValueError: negative dimensions are not allowed`. -/
def MeshOptimizer.generate_mesh (u : Nat → ℚ) (s : MeshOptimizer) (_g : RngState) :
    Except String (List MeshRecord × MeshOptimizer × RngState) :=
  if s.num_elements < 0 then
    .error "ValueError: negative dimensions are not allowed"
  else
    let n := s.num_elements.toNat
    let ds := generatedData u n
    .ok (ds, { s with mesh_data := some ds }, ⟨u, 4 * n⟩)

/-- The `if self.mesh_data is None: self.generate_mesh()` preamble of
`analyze_mesh_quality` and `optimize_mesh`, followed by reading
`self.mesh_data`. -/
def MeshOptimizer.currentData (u : Nat → ℚ) (s : MeshOptimizer) (g : RngState) :
    Except String (List MeshRecord × MeshOptimizer × RngState) :=
  match s.mesh_data with
  | some ds => .ok (ds, s, g)
  | none => s.generate_mesh u g

/-- `analyze_mesh_quality` (lines 31-53).  On an empty dataset the
`Percentage_Poor` entry divides the Python integer `0` by `0`, a
`ZeroDivisionError`. -/
def MeshOptimizer.analyze_mesh_quality (u : Nat → ℚ) (s : MeshOptimizer) (g : RngState) :
    Except String ((AnalysisReport × List MeshRecord) × MeshOptimizer × RngState) := do
  let (ds, s', g') ← s.currentData u g
  if ds.length = 0 then
    .error "ZeroDivisionError: division by zero"
  else
    .ok ((mkAnalysisReport ds, poorElements ds), s', g')

/-- `optimize_mesh` (lines 55-72): copies the cached dataset, scales the
flagged attributes and clamps every attribute, leaving `self.mesh_data`
untouched. -/
def MeshOptimizer.optimize_mesh (u : Nat → ℚ) (s : MeshOptimizer) (g : RngState) :
    Except String (List MeshRecord × MeshOptimizer × RngState) := do
  let (ds, s', g') ← s.currentData u g
  .ok (optimizeData ds, s', g')

/-- `compute_optimization_metrics` (lines 74-86).  Reads `self.mesh_data`
directly (a `TypeError` when it is still `None`); the improvement formula
divides by the original mean quality with no guard; the
`Computational_Time_Reduction` figure is `np.random.uniform(18, 22)`, drawn
from the global RNG at its current position. -/
def MeshOptimizer.compute_optimization_metrics (s : MeshOptimizer)
    (optimized_mesh : List MeshRecord) (g : RngState) :
    Except String (OptMetrics × RngState) :=
  match s.mesh_data with
  | none => .error "TypeError: mesh_data is None"
  | some ds =>
    let original_avg_quality := colMean (ds.map MeshRecord.element_quality)
    let optimized_avg_quality := colMean (optimized_mesh.map MeshRecord.element_quality)
    if original_avg_quality = 0 then
      .error "division by zero"
    else
      .ok ({ original_avg_quality := original_avg_quality
             optimized_avg_quality := optimized_avg_quality
             improvement_percentage :=
               ((optimized_avg_quality - original_avg_quality) / original_avg_quality) * 100
             computational_time_reduction := 18 + (22 - 18) * g.stream g.pos },
           ⟨g.stream, g.pos + 1⟩)

/-- Everything `main` produces that reaches the console or the three CSV
files: the generated dataset (`original_mesh_data.csv`), the analysis report,
the poor subset (`poor_quality_elements.csv`), the adjusted dataset
(`optimized_mesh_data.csv`) and the metrics dictionary. -/
structure RunOutput where
  mesh_data : List MeshRecord
  analysis : AnalysisReport
  poor_elements : List MeshRecord
  optimized_mesh : List MeshRecord
  metrics : OptMetrics
deriving DecidableEq, Repr

/-- `main` (lines 89-131) for an arbitrary element count, starting from a
fresh (per-run, unseeded) RNG state `g0`: generate, analyze, optimize,
compute metrics. -/
def runMain (u : Nat → ℚ) (n : Int) (g0 : RngState) : Except String RunOutput := do
  let optimizer := MeshOptimizer.mkNew n
  let (mesh_data, s1, g1) ← optimizer.generate_mesh u g0
  let ((analysis, poor_elements), s2, g2) ← s1.analyze_mesh_quality u g1
  let (optimized_mesh, s3, g3) ← s2.optimize_mesh u g2
  let (metrics, _g4) ← s3.compute_optimization_metrics optimized_mesh g3
  .ok ⟨mesh_data, analysis, poor_elements, optimized_mesh, metrics⟩

/-- `Except.isOk` as a plain boolean test. -/
def exceptOk {α : Type} (e : Except String α) : Bool :=
  match e with
  | .ok _ => true
  | .error _ => false

/-! ### Helper lemmas -/

theorem clip_lower (x lo hi : ℚ) (h : lo ≤ hi) : lo ≤ clip x lo hi :=
  le_min (le_max_right x lo) h

theorem clip_upper (x lo hi : ℚ) : clip x lo hi ≤ hi :=
  min_le_right _ _

theorem clip_eq_self (x lo hi : ℚ) (hlo : lo ≤ x) (hhi : x ≤ hi) : clip x lo hi = x := by
  unfold clip
  rw [max_eq_left hlo, min_eq_left hhi]

theorem optimizeRecord_element_id (r : MeshRecord) :
    (optimizeRecord r).element_id = r.element_id := rfl

theorem isPoor_iff (r : MeshRecord) :
    isPoor r = true ↔
      r.aspect_ratio > 3.5 ∨ r.jacobian < 0.5 ∨ r.skewness > 0.6 ∨ r.element_quality < 0.6 := by
  simp [isPoor, or_assoc]

theorem generatedData_mean_quality_pos (u : Nat → ℚ) (n : Nat)
    (hu : UnitStream u) (hn : 0 < n) :
    0 < colMean ((generatedData u n).map MeshRecord.element_quality) := by
  have hsum : 0 < ((generatedData u n).map MeshRecord.element_quality).sum := by
    apply List.sum_pos
    · intro x hx
      simp only [generatedData, List.map_map, List.mem_map, Function.comp] at hx
      obtain ⟨i, _, rfl⟩ := hx
      have h0 := (hu (3 * n + i)).1
      simp only [generatedRecord]
      nlinarith
    · simp [generatedData, List.map_eq_nil_iff, List.range_eq_nil, hn.ne']
  have hlen : (0 : ℚ) < ((generatedData u n).map MeshRecord.element_quality).length := by
    simp [generatedData, hn]
  exact div_pos hsum hlen

/-! ### Claim theorems -/

/-- C1: for every record of a dataset, `analyze_mesh_quality` flags it as poor
iff `Aspect_Ratio > 3.5` or `Jacobian < 0.5` or `Skewness > 0.6` or
`Element_Quality < 0.6`; the reported `Poor_Quality_Elements` count equals the
size of the poor subset, and the subset preserves the input order (it is a
sublist of the input). -/
theorem analyze_flags_poor_iff (ds : List MeshRecord) :
    (∀ r : MeshRecord, r ∈ poorElements ds ↔ r ∈ ds ∧
      (r.aspect_ratio > 3.5 ∨ r.jacobian < 0.5 ∨ r.skewness > 0.6 ∨
        r.element_quality < 0.6)) ∧
    (mkAnalysisReport ds).poor_quality_elements = (poorElements ds).length ∧
    (poorElements ds).Sublist ds := by
  refine ⟨fun r => ?_, rfl, List.filter_sublist ds⟩
  rw [poorElements, List.mem_filter, isPoor_iff]

/-- C2: every attribute of every record of `optimize_mesh`'s output lies
within its documented clamp range, unconditionally. -/
theorem optimize_output_clamped (ds : List MeshRecord) (r : MeshRecord)
    (h : r ∈ optimizeData ds) :
    (1 ≤ r.aspect_ratio ∧ r.aspect_ratio ≤ 4) ∧
    (0.3 ≤ r.jacobian ∧ r.jacobian ≤ 1) ∧
    (0 ≤ r.skewness ∧ r.skewness ≤ 0.7) ∧
    (0.5 ≤ r.element_quality ∧ r.element_quality ≤ 1) := by
  simp only [optimizeData, List.mem_map] at h
  obtain ⟨r0, _, rfl⟩ := h
  simp only [optimizeRecord]
  refine ⟨⟨?_, ?_⟩, ⟨?_, ?_⟩, ⟨?_, ?_⟩, ⟨?_, ?_⟩⟩
  · exact le_trans (by norm_num) (clip_lower _ _ _ (by norm_num))
  · exact le_trans (clip_upper _ _ _) (by norm_num)
  · exact le_trans (by norm_num) (clip_lower _ _ _ (by norm_num))
  · exact le_trans (clip_upper _ _ _) (by norm_num)
  · exact le_trans (by norm_num) (clip_lower _ _ _ (by norm_num))
  · exact le_trans (clip_upper _ _ _) (by norm_num)
  · exact le_trans (by norm_num) (clip_lower _ _ _ (by norm_num))
  · exact le_trans (clip_upper _ _ _) (by norm_num)

/-- Witness for `optimize_output_clamped` at a concrete dataset. -/
theorem optimize_output_clamped_witness :
    ((1:ℚ) ≤ 2 ∧ (2:ℚ) ≤ 4) ∧ ((0.3:ℚ) ≤ 39/100 ∧ (39/100:ℚ) ≤ 1) ∧
    ((0:ℚ) ≤ 1/10 ∧ (1/10:ℚ) ≤ 0.7) ∧ ((0.5:ℚ) ≤ 9/10 ∧ (9/10:ℚ) ≤ 1) :=
  optimize_output_clamped [⟨1, 2, 3/10, 1/10, 9/10⟩] ⟨1, 2, 39/100, 1/10, 9/10⟩
    (by norm_num [optimizeData, optimizeRecord, clip, min_def, max_def])

theorem optimizeRecord_bounds (r : MeshRecord) :
    (1 ≤ (optimizeRecord r).aspect_ratio ∧ (optimizeRecord r).aspect_ratio ≤ 4) ∧
    (0.3 ≤ (optimizeRecord r).jacobian ∧ (optimizeRecord r).jacobian ≤ 1) ∧
    (0 ≤ (optimizeRecord r).skewness ∧ (optimizeRecord r).skewness ≤ 0.7) ∧
    (0.5 ≤ (optimizeRecord r).element_quality ∧ (optimizeRecord r).element_quality ≤ 1) := by
  simp only [optimizeRecord]
  refine ⟨⟨?_, ?_⟩, ⟨?_, ?_⟩, ⟨?_, ?_⟩, ⟨?_, ?_⟩⟩
  · exact le_trans (by norm_num) (clip_lower _ _ _ (by norm_num))
  · exact le_trans (clip_upper _ _ _) (by norm_num)
  · exact le_trans (by norm_num) (clip_lower _ _ _ (by norm_num))
  · exact le_trans (clip_upper _ _ _) (by norm_num)
  · exact le_trans (by norm_num) (clip_lower _ _ _ (by norm_num))
  · exact le_trans (clip_upper _ _ _) (by norm_num)
  · exact le_trans (by norm_num) (clip_lower _ _ _ (by norm_num))
  · exact le_trans (clip_upper _ _ _) (by norm_num)

theorem optimizeRecord_fixed (r : MeshRecord) (hp : isPoor r = false)
    (hb : (1 ≤ r.aspect_ratio ∧ r.aspect_ratio ≤ 4) ∧
          (0.3 ≤ r.jacobian ∧ r.jacobian ≤ 1) ∧
          (0 ≤ r.skewness ∧ r.skewness ≤ 0.7) ∧
          (0.5 ≤ r.element_quality ∧ r.element_quality ≤ 1)) :
    optimizeRecord r = r := by
  obtain ⟨⟨ha1, ha2⟩, ⟨hj1, hj2⟩, ⟨hs1, hs2⟩, ⟨hq1, hq2⟩⟩ := hb
  simp only [isPoor, Bool.or_eq_false_iff, decide_eq_false_iff_not, not_lt] at hp
  obtain ⟨⟨⟨ha, hj⟩, hs⟩, hq⟩ := hp
  cases r with
  | mk eid ar j sk q =>
    simp only [optimizeRecord, MeshRecord.mk.injEq] at *
    refine ⟨trivial, ?_, ?_, ?_, ?_⟩
    · rw [if_neg (not_lt.mpr ha)]
      exact clip_eq_self _ _ _ (by linarith) (by linarith)
    · rw [if_neg (not_lt.mpr hj)]
      exact clip_eq_self _ _ _ (by linarith) (by linarith)
    · rw [if_neg (not_lt.mpr hs)]
      exact clip_eq_self _ _ _ (by linarith) (by linarith)
    · rw [if_neg (not_lt.mpr hq)]
      exact clip_eq_self _ _ _ (by linarith) (by linarith)

/-- C3 counterexample: the adjuster is not idempotent.  A record with
`Jacobian = 0.3` is scaled to `0.39` by one pass (still below the `0.5`
threshold) and to `0.507` by a second pass. -/
theorem optimize_not_idempotent :
    optimizeData (optimizeData [⟨1, 2, 3/10, 1/10, 9/10⟩]) ≠
      optimizeData [⟨1, 2, 3/10, 1/10, 9/10⟩] := by
  norm_num [optimizeData, optimizeRecord, clip, min_def, max_def]

/-- C3 amended: a second application of the scale-and-clamp transform changes
nothing further provided no record of the adjusted output still meets a
threshold condition. -/
theorem optimize_idempotent_of_no_poor (ds : List MeshRecord)
    (h : ∀ r ∈ optimizeData ds, isPoor r = false) :
    optimizeData (optimizeData ds) = optimizeData ds := by
  unfold optimizeData
  rw [List.map_map]
  apply List.map_congr_left
  intro a ha
  have hp : isPoor (optimizeRecord a) = false :=
    h (optimizeRecord a) (List.mem_map_of_mem optimizeRecord ha)
  exact optimizeRecord_fixed (optimizeRecord a) hp (optimizeRecord_bounds a)

/-- Witness for `optimize_idempotent_of_no_poor` at a concrete dataset. -/
theorem optimize_idempotent_witness :
    optimizeData (optimizeData [⟨1, 2, 8/10, 1/10, 9/10⟩]) =
      optimizeData [⟨1, 2, 8/10, 1/10, 9/10⟩] :=
  optimize_idempotent_of_no_poor [⟨1, 2, 8/10, 1/10, 9/10⟩]
    (by norm_num [optimizeData, optimizeRecord, clip, min_def, max_def, isPoor])

/-- C4: on a simulator holding a cached dataset, `optimize_mesh` returns a new
dataset of identical shape whose `Element_ID` column and record order match
the input's, and leaves the simulator (its cached `mesh_data`) and the RNG
completely unmodified. -/
theorem optimize_frame (u : Nat → ℚ) (s : MeshOptimizer) (ds : List MeshRecord)
    (g : RngState) (h : s.mesh_data = some ds) :
    s.optimize_mesh u g = .ok (optimizeData ds, s, g) ∧
    (optimizeData ds).length = ds.length ∧
    (optimizeData ds).map MeshRecord.element_id = ds.map MeshRecord.element_id := by
  refine ⟨?_, List.length_map _ _, ?_⟩
  · unfold MeshOptimizer.optimize_mesh MeshOptimizer.currentData
    rw [h]
    rfl
  · rw [optimizeData, List.map_map]
    apply List.map_congr_left
    intro a _
    exact optimizeRecord_element_id a

/-- Witness for `optimize_frame` at a concrete simulator state. -/
theorem optimize_frame_witness :
    (⟨5, some [⟨1, 2, 1/2, 1/10, 7/10⟩]⟩ : MeshOptimizer).optimize_mesh
        (fun _ => 0) ⟨fun _ => 0, 0⟩ =
      .ok (optimizeData [⟨1, 2, 1/2, 1/10, 7/10⟩],
           ⟨5, some [⟨1, 2, 1/2, 1/10, 7/10⟩]⟩, ⟨fun _ => 0, 0⟩) ∧
    (optimizeData [⟨1, 2, 1/2, 1/10, 7/10⟩]).length =
      [(⟨1, 2, 1/2, 1/10, 7/10⟩ : MeshRecord)].length ∧
    (optimizeData [⟨1, 2, 1/2, 1/10, 7/10⟩]).map MeshRecord.element_id =
      [(⟨1, 2, 1/2, 1/10, 7/10⟩ : MeshRecord)].map MeshRecord.element_id :=
  optimize_frame (fun _ => 0) _ _ _ rfl

/-- C5: when the cached original dataset's mean element quality is non-zero,
`compute_optimization_metrics` succeeds and its `Improvement_Percentage`
equals `(mean(adjusted) - mean(original)) / mean(original) * 100`, the mean of
a column being its sum divided by its length (exact in `ℚ`, hence within any
floating-point tolerance). -/
theorem improvement_percentage_formula (s : MeshOptimizer)
    (original optimized : List MeshRecord) (g : RngState)
    (hm : s.mesh_data = some original)
    (h : colMean (original.map MeshRecord.element_quality) ≠ 0) :
    ∃ m g', s.compute_optimization_metrics optimized g = .ok (m, g') ∧
      m.improvement_percentage =
        ((optimized.map MeshRecord.element_quality).sum /
            ((optimized.map MeshRecord.element_quality).length : ℚ) -
          (original.map MeshRecord.element_quality).sum /
            ((original.map MeshRecord.element_quality).length : ℚ)) /
          ((original.map MeshRecord.element_quality).sum /
            ((original.map MeshRecord.element_quality).length : ℚ)) * 100 := by
  unfold MeshOptimizer.compute_optimization_metrics
  rw [hm]
  simp only [if_neg h]
  exact ⟨_, _, rfl, rfl⟩

/-- Witness for `improvement_percentage_formula`: quality mean rises from
`1/2` to `3/4`, a 50 percent improvement. -/
theorem improvement_percentage_formula_witness :
    ∃ m g', (⟨1, some [⟨1, 2, 1/2, 1/10, 1/2⟩]⟩ : MeshOptimizer).compute_optimization_metrics
        [⟨1, 2, 1/2, 1/10, 3/4⟩] ⟨fun _ => 0, 0⟩ = .ok (m, g') ∧
      m.improvement_percentage = 50 := by
  obtain ⟨m, g', h1, h2⟩ :=
    improvement_percentage_formula ⟨1, some [⟨1, 2, 1/2, 1/10, 1/2⟩]⟩
      [⟨1, 2, 1/2, 1/10, 1/2⟩] [⟨1, 2, 1/2, 1/10, 3/4⟩] ⟨fun _ => 0, 0⟩ rfl
      (by norm_num [colMean])
  refine ⟨m, g', h1, ?_⟩
  rw [h2]
  norm_num

/-- C6 counterexample: the generator does not fail at element count 0 —
`np.arange(1, 1)` and `np.random.uniform(lo, hi, 0)` both return empty
arrays, so `generate_mesh` succeeds with an empty dataset. -/
theorem generate_mesh_zero_succeeds :
    (MeshOptimizer.mkNew 0).generate_mesh (fun _ => 0) ⟨fun _ => 0, 0⟩ =
      .ok ([], ⟨0, some []⟩, ⟨fun _ => 0, 0⟩) := rfl

/-- C6 amended: `generate_mesh` fails exactly on a negative element count
(`ValueError` from `np.random.uniform` with a negative size); it succeeds for
every non-negative count, the empty dataset included. -/
theorem generate_mesh_ok_iff (u : Nat → ℚ) (s : MeshOptimizer) (g : RngState) :
    exceptOk (s.generate_mesh u g) = true ↔ 0 ≤ s.num_elements := by
  by_cases hc : s.num_elements < 0
  · simp only [MeshOptimizer.generate_mesh, if_pos hc, exceptOk]
    simp only [Bool.false_eq_true, false_iff]
    omega
  · simp only [MeshOptimizer.generate_mesh, if_neg hc, exceptOk]
    simp only [true_iff]
    omega

/-- C7: `compute_optimization_metrics` hits an unguarded division-by-zero
exactly when the cached original mean element quality is zero, and that case
is unreachable from the generator's output: any non-empty generated dataset
over a unit stream has strictly positive mean element quality. -/
theorem metrics_div_by_zero (s : MeshOptimizer) (ds optimized : List MeshRecord)
    (g : RngState) (u : Nat → ℚ) (n : Nat)
    (hm : s.mesh_data = some ds)
    (h : colMean (ds.map MeshRecord.element_quality) = 0)
    (hu : UnitStream u) (hn : 0 < n) :
    s.compute_optimization_metrics optimized g = .error "division by zero" ∧
    0 < colMean ((generatedData u n).map MeshRecord.element_quality) := by
  refine ⟨?_, generatedData_mean_quality_pos u n hu hn⟩
  unfold MeshOptimizer.compute_optimization_metrics
  rw [hm]
  simp only [if_pos h]

/-- Witness for `metrics_div_by_zero` at a dataset whose only record has
element quality `0`. -/
theorem metrics_div_by_zero_witness :
    (⟨1, some [⟨1, 0, 0, 0, 0⟩]⟩ : MeshOptimizer).compute_optimization_metrics
        [] ⟨fun _ => 0, 0⟩ = .error "division by zero" ∧
    0 < colMean ((generatedData (fun _ => 1/2) 1).map MeshRecord.element_quality) :=
  metrics_div_by_zero ⟨1, some [⟨1, 0, 0, 0, 0⟩]⟩ [⟨1, 0, 0, 0, 0⟩] [] ⟨fun _ => 0, 0⟩
    (fun _ => 1/2) 1 rfl (by norm_num [colMean]) (fun k => by norm_num) (by norm_num)

theorem runMain_timing_eq (u : Nat → ℚ) (n : Int) (g : RngState)
    (hu : UnitStream u) (hn : 0 < n) :
    Except.map (fun o => o.metrics.computational_time_reduction) (runMain u n g) =
      .ok (18 + (22 - 18) * u (4 * n.toNat)) := by
  have hc : ¬ n < 0 := not_lt.mpr hn.le
  have hlen : ¬ (generatedData u n.toNat).length = 0 := by
    simp [generatedData]
    omega
  have hmean : ¬ colMean ((generatedData u n.toNat).map MeshRecord.element_quality) = 0 :=
    ne_of_gt (generatedData_mean_quality_pos u n.toNat hu (by omega))
  simp only [runMain, MeshOptimizer.mkNew, MeshOptimizer.generate_mesh, if_neg hc,
    MeshOptimizer.analyze_mesh_quality, MeshOptimizer.optimize_mesh,
    MeshOptimizer.currentData, MeshOptimizer.compute_optimization_metrics,
    if_neg hlen, if_neg hmean, Except.map, bind, Except.bind]

/-- C8 counterexample: the `Computational_Time_Reduction` figure is drawn from
the globally seeded RNG stream (seeded with 42 inside `generate_mesh`), not
from fresh entropy: two runs that differ only in their pre-run RNG state
produce identical outputs, and at element count 1 over the constant stream
`1/2` the figure is the fixed value `20`, so it cannot differ between runs of
equal element count. -/
theorem timing_figure_seeded :
    runMain (fun _ => 1/2) 1 ⟨fun _ => 0, 0⟩ = runMain (fun _ => 1/2) 1 ⟨fun _ => 1/3, 7⟩ ∧
    Except.map (fun o => o.metrics.computational_time_reduction)
        (runMain (fun _ => 1/2) 1 ⟨fun _ => 0, 0⟩) = .ok 20 := by
  refine ⟨rfl, ?_⟩
  rw [runMain_timing_eq (fun _ => 1/2) 1 ⟨fun _ => 0, 0⟩ (fun k => by norm_num) (by norm_num)]
  norm_num

/-- C8 amended: with the fixed seed, the whole run output — generated
dataset, analysis, poor subset, adjusted dataset and all metrics, the
`Computational_Time_Reduction` figure included — is a function of the seed-42
stream and the element count alone: it is independent of the pre-run RNG
state, and the timing figure equals `18 + (22 - 18) * u (4n)`, the next draw
of the seeded stream. -/
theorem run_reproducible (u : Nat → ℚ) (n : Int) (g g' : RngState)
    (hu : UnitStream u) (hn : 0 < n) :
    runMain u n g = runMain u n g' ∧
    Except.map (fun o => o.metrics.computational_time_reduction) (runMain u n g) =
      .ok (18 + (22 - 18) * u (4 * n.toNat)) :=
  ⟨rfl, runMain_timing_eq u n g hu hn⟩

/-- Witness for `run_reproducible` at element count 2 over the constant
stream `1/2`. -/
theorem run_reproducible_witness :
    runMain (fun _ => 1/2) 2 ⟨fun _ => 0, 0⟩ = runMain (fun _ => 1/2) 2 ⟨fun _ => 1/3, 7⟩ ∧
    Except.map (fun o => o.metrics.computational_time_reduction)
        (runMain (fun _ => 1/2) 2 ⟨fun _ => 0, 0⟩) =
      .ok (18 + (22 - 18) * (fun _ => (1:ℚ)/2) (4 * (2:Int).toNat)) :=
  run_reproducible (fun _ => 1/2) 2 ⟨fun _ => 0, 0⟩ ⟨fun _ => 1/3, 7⟩
    (fun k => by norm_num) (by norm_num)

/-- C9: for a positive element count the generator yields exactly `n` records
whose `Element_ID` column is `1..n` in order, and every record's attributes
lie within the documented generation ranges. -/
theorem generated_shape_and_ranges (u : Nat → ℚ) (n : Nat) (r : MeshRecord)
    (hu : UnitStream u) (hn : 0 < n) (hr : r ∈ generatedData u n) :
    (generatedData u n).length = n ∧
    (generatedData u n).map MeshRecord.element_id =
      (List.range n).map (fun i : Nat => (i : Int) + 1) ∧
    ((1 ≤ r.aspect_ratio ∧ r.aspect_ratio ≤ 5) ∧
     (0.3 ≤ r.jacobian ∧ r.jacobian ≤ 1) ∧
     (0 ≤ r.skewness ∧ r.skewness ≤ 0.8) ∧
     (0.4 ≤ r.element_quality ∧ r.element_quality ≤ 1)) := by
  refine ⟨by simp [generatedData], ?_, ?_⟩
  · rw [generatedData, List.map_map]
    apply List.map_congr_left
    intro i _
    rfl
  · simp only [generatedData, List.mem_map] at hr
    obtain ⟨i, _, rfl⟩ := hr
    obtain ⟨h1, h2⟩ := hu i
    obtain ⟨j1, j2⟩ := hu (n + i)
    obtain ⟨s1, s2⟩ := hu (2 * n + i)
    obtain ⟨q1, q2⟩ := hu (3 * n + i)
    simp only [generatedRecord]
    refine ⟨⟨by linarith, by linarith⟩, ⟨by linarith, by linarith⟩,
            ⟨by linarith, by linarith⟩, ⟨by linarith, by linarith⟩⟩

/-- Witness for `generated_shape_and_ranges` at count 1 over the constant
stream `1/2`. -/
theorem generated_shape_and_ranges_witness :
    (generatedData (fun _ => 1/2) 1).length = 1 ∧
    (generatedData (fun _ => 1/2) 1).map MeshRecord.element_id =
      (List.range 1).map (fun i : Nat => (i : Int) + 1) ∧
    ((1 ≤ (generatedRecord (fun _ => (1:ℚ)/2) 1 0).aspect_ratio ∧
        (generatedRecord (fun _ => (1:ℚ)/2) 1 0).aspect_ratio ≤ 5) ∧
     (0.3 ≤ (generatedRecord (fun _ => (1:ℚ)/2) 1 0).jacobian ∧
        (generatedRecord (fun _ => (1:ℚ)/2) 1 0).jacobian ≤ 1) ∧
     (0 ≤ (generatedRecord (fun _ => (1:ℚ)/2) 1 0).skewness ∧
        (generatedRecord (fun _ => (1:ℚ)/2) 1 0).skewness ≤ 0.8) ∧
     (0.4 ≤ (generatedRecord (fun _ => (1:ℚ)/2) 1 0).element_quality ∧
        (generatedRecord (fun _ => (1:ℚ)/2) 1 0).element_quality ≤ 1)) :=
  generated_shape_and_ranges (fun _ => 1/2) 1 (generatedRecord (fun _ => 1/2) 1 0)
    (fun k => by norm_num) (by norm_num)
    (by rw [generatedData]; exact List.mem_map_of_mem _ (by simp))

/-- C10 counterexample: with `num_elements = 0` and no cached dataset,
`analyze_mesh_quality` does fail — the lazy `generate_mesh` call succeeds
with an empty dataset and the report's `Percentage_Poor` entry then divides
by `len(self.mesh_data) = 0` (`ZeroDivisionError`). -/
theorem analyze_fresh_zero_fails :
    (MeshOptimizer.mkNew 0).analyze_mesh_quality (fun _ => 0) ⟨fun _ => 0, 0⟩ =
      .error "ZeroDivisionError: division by zero" := rfl

/-- C10 amended: provided the configured element count is positive, calling
`analyze_mesh_quality` or `optimize_mesh` before any dataset has been
generated does not fail: each equals the result of calling `generate_mesh`
explicitly and then the operation; and when a (non-empty) dataset is already
cached, neither operation regenerates it — both return with the simulator
state and RNG state untouched. -/
theorem lazy_generation (u : Nat → ℚ) (n : Int) (g : RngState) (s : MeshOptimizer)
    (ds : List MeshRecord) (hn : 0 < n) (hc : s.mesh_data = some ds) (hne : ds ≠ []) :
    (MeshOptimizer.mkNew n).analyze_mesh_quality u g =
      ((MeshOptimizer.mkNew n).generate_mesh u g).bind
        (fun x => x.2.1.analyze_mesh_quality u x.2.2) ∧
    (MeshOptimizer.mkNew n).optimize_mesh u g =
      ((MeshOptimizer.mkNew n).generate_mesh u g).bind
        (fun x => x.2.1.optimize_mesh u x.2.2) ∧
    exceptOk ((MeshOptimizer.mkNew n).analyze_mesh_quality u g) = true ∧
    exceptOk ((MeshOptimizer.mkNew n).optimize_mesh u g) = true ∧
    s.analyze_mesh_quality u g = .ok ((mkAnalysisReport ds, poorElements ds), s, g) ∧
    s.optimize_mesh u g = .ok (optimizeData ds, s, g) := by
  have hc0 : ¬ n < 0 := not_lt.mpr hn.le
  have hlen : ¬ (generatedData u n.toNat).length = 0 := by
    simp [generatedData]
    omega
  have hdne : ¬ ds.length = 0 := by
    simpa [List.length_eq_zero] using hne
  refine ⟨?_, ?_, ?_, ?_, ?_, ?_⟩
  · simp only [MeshOptimizer.analyze_mesh_quality, MeshOptimizer.currentData,
      MeshOptimizer.mkNew, MeshOptimizer.generate_mesh, if_neg hc0,
      bind, Except.bind]
  · simp only [MeshOptimizer.optimize_mesh, MeshOptimizer.currentData,
      MeshOptimizer.mkNew, MeshOptimizer.generate_mesh, if_neg hc0,
      bind, Except.bind]
  · simp only [MeshOptimizer.analyze_mesh_quality, MeshOptimizer.currentData,
      MeshOptimizer.mkNew, MeshOptimizer.generate_mesh, if_neg hc0,
      bind, Except.bind, if_neg hlen, exceptOk]
  · simp only [MeshOptimizer.optimize_mesh, MeshOptimizer.currentData,
      MeshOptimizer.mkNew, MeshOptimizer.generate_mesh, if_neg hc0,
      bind, Except.bind, exceptOk]
  · simp only [MeshOptimizer.analyze_mesh_quality, MeshOptimizer.currentData, hc,
      bind, Except.bind, if_neg hdne]
  · simp only [MeshOptimizer.optimize_mesh, MeshOptimizer.currentData, hc,
      bind, Except.bind]

/-- Witness for `lazy_generation` at element count 1 and a concrete cached
simulator. -/
theorem lazy_generation_witness :
    (MeshOptimizer.mkNew 1).analyze_mesh_quality (fun _ => 1/2) ⟨fun _ => 0, 0⟩ =
      ((MeshOptimizer.mkNew 1).generate_mesh (fun _ => 1/2) ⟨fun _ => 0, 0⟩).bind
        (fun x => x.2.1.analyze_mesh_quality (fun _ => 1/2) x.2.2) ∧
    (MeshOptimizer.mkNew 1).optimize_mesh (fun _ => 1/2) ⟨fun _ => 0, 0⟩ =
      ((MeshOptimizer.mkNew 1).generate_mesh (fun _ => 1/2) ⟨fun _ => 0, 0⟩).bind
        (fun x => x.2.1.optimize_mesh (fun _ => 1/2) x.2.2) ∧
    exceptOk ((MeshOptimizer.mkNew 1).analyze_mesh_quality (fun _ => 1/2) ⟨fun _ => 0, 0⟩) = true ∧
    exceptOk ((MeshOptimizer.mkNew 1).optimize_mesh (fun _ => 1/2) ⟨fun _ => 0, 0⟩) = true ∧
    (⟨5, some [⟨1, 2, 1/2, 1/10, 7/10⟩]⟩ : MeshOptimizer).analyze_mesh_quality
        (fun _ => 1/2) ⟨fun _ => 0, 0⟩ =
      .ok ((mkAnalysisReport [⟨1, 2, 1/2, 1/10, 7/10⟩], poorElements [⟨1, 2, 1/2, 1/10, 7/10⟩]),
           ⟨5, some [⟨1, 2, 1/2, 1/10, 7/10⟩]⟩, ⟨fun _ => 0, 0⟩) ∧
    (⟨5, some [⟨1, 2, 1/2, 1/10, 7/10⟩]⟩ : MeshOptimizer).optimize_mesh
        (fun _ => 1/2) ⟨fun _ => 0, 0⟩ =
      .ok (optimizeData [⟨1, 2, 1/2, 1/10, 7/10⟩],
           ⟨5, some [⟨1, 2, 1/2, 1/10, 7/10⟩]⟩, ⟨fun _ => 0, 0⟩) :=
  lazy_generation (fun _ => 1/2) 1 ⟨fun _ => 0, 0⟩ ⟨5, some [⟨1, 2, 1/2, 1/10, 7/10⟩]⟩
    [⟨1, 2, 1/2, 1/10, 7/10⟩] (by norm_num) rfl (by simp)
